import Mathlib

/-
Verification of the Transition core of the ember routing declarations
(src/types/ember__routing/transition.d.ts).  The repository ships only the
type declarations of the Transition interface; the behaviour itself is
specified in spec.md.  The definitions below are therefore a shallow
embedding of that specified behaviour (each such definition says so in its
doc comment), while the TypeScript type expressions of the declared fields
are embedded directly from the declaration file.
-/

namespace Spec2Proof

/-- Modelled from the spec (section 3, RouteInfo node): an immutable linked
list of resolved-route descriptors; a chain is acyclic and terminates at a
root node with no parent.  The inductive structure makes acyclicity hold by
construction. -/
inductive RouteInfo where
  | root (name : String)
  | child (name : String) (parent : RouteInfo)
deriving DecidableEq, Repr

/-- Name of the route level this node describes. -/
def RouteInfo.name : RouteInfo → String
  | .root n => n
  | .child n _ => n

/-- Modelled from the spec (section 7, error taxonomy): Aborted carries the
cancelled transition's own reference (its sequence id), Redirected carries a
reference to the superseding transition (its sequence id), HookFailure the
original cause, UnhandledEvent the event name and the leaf route. -/
inductive Reason where
  | aborted (tid : Nat)
  | redirected (successor : Nat)
  | hookFailure (message : String)
  | unhandledEvent (event : String) (leafRoute : String)
deriving DecidableEq, Repr

/-- Whether a rejection reason is Redirect-kind. -/
def Reason.isRedirect : Reason → Bool
  | .redirected _ => true
  | _ => false

/-- Settlement outcome of a transition's internal promise. -/
inductive Outcome (T : Type) where
  | fulfilled (value : T)
  | rejected (reason : Reason)
deriving DecidableEq, Repr

/-- Modelled from the spec (section 3): `urlMethod` enum. -/
inductive UrlMethod where
  | UpdateURL
  | ReplaceURL
  | None
deriving DecidableEq, Repr

/-- Modelled from the spec (section 3): `status` enum; Pending is the only
non-terminal state. -/
inductive Status where
  | Pending
  | Fulfilled
  | Aborted
  | Redirected
deriving DecidableEq, Repr

/-- Modelled from the spec (section 3, Transition record): the mutable record
tracking one navigation attempt.  `settlement` is the internal settlement
promise: `Option.none` while unsettled, written exactly once.  `T` is the
fulfillment value type, `D` the type of the values in the `data` bag. -/
structure TransitionRec (T D : Type) where
  id : Nat
  from' : Option RouteInfo
  to' : RouteInfo
  targetName : Option String
  data : List (String × D)
  urlMethod : UrlMethod
  status : Status
  settlement : Option (Outcome T)
deriving DecidableEq, Repr

/-- Modelled from the spec (section 5): the internal settlement promise is
written exactly once - first settlement wins, later attempts are no-ops. -/
def TransitionRec.settle (t : TransitionRec T D) (o : Outcome T) : TransitionRec T D :=
  if t.settlement.isSome then t else { t with settlement := some o }

/-- The exposed read-only `promise` property: a handle to the internal
settlement promise. -/
def TransitionRec.promise (t : TransitionRec T D) : Option (Outcome T) :=
  t.settlement

/-- Modelled from the spec (section 4.2, abort): if the transition is
Pending, set status to Aborted and reject the internal promise with an
Aborted-kind error carrying the transition's own reference; if already
settled, a no-op returning the same transition unchanged. -/
def TransitionRec.abort (t : TransitionRec T D) : TransitionRec T D :=
  if t.status = .Pending then
    ({ t with status := Status.Aborted }).settle (.rejected (.aborted t.id))
  else t

/-- Modelled from the spec (section 4.1, method): the urlMethod value an
argument of method records - no argument records None, the literal replace
token records ReplaceURL, any other falsy value records None, any other
truthy value records UpdateURL. -/
def methodUrl (m : Option String) : UrlMethod :=
  match m with
  | Option.none => UrlMethod.None
  | some s =>
    if s = "replace" then UrlMethod.ReplaceURL
    else if s = "" then UrlMethod.None
    else UrlMethod.UpdateURL

/-- Modelled from the spec (section 4.1, method): overwrites the recorded
urlMethod with the value determined by the argument; last write wins, no
error. -/
def TransitionRec.method (t : TransitionRec T D) (m : Option String) : TransitionRec T D :=
  { t with urlMethod := methodUrl m }

/-- Modelled from the spec (section 6): the URL change committed on
fulfillment, per the recorded `urlMethod`; `Option.none` means no URL
mutation is requested.  A fulfillment commits at most this single action. -/
def TransitionRec.urlActionOnFulfill (t : TransitionRec T D) : Option UrlMethod :=
  match t.urlMethod with
  | UrlMethod.None => Option.none
  | m => some m

/-- Modelled from the spec (section 4.1, thennable adapter): the promise
combinator the transition forwards `then` to.  The diagnostic label argument
is accepted and has no behavioral effect. -/
def promiseThen (p : Option (Outcome T)) (onFulfilled : T → Outcome R)
    (onRejected : Reason → Outcome R) (_label : Option String) : Option (Outcome R) :=
  p.map fun o =>
    match o with
    | .fulfilled v => onFulfilled v
    | .rejected r => onRejected r

/-- Modelled from the spec (section 4.1): `then` forwards to the internal
`promise` property; the label has no behavioral effect. -/
def TransitionRec.then' (t : TransitionRec T D) (onFulfilled : T → Outcome R)
    (onRejected : Reason → Outcome R) (label : Option String) : Option (Outcome R) :=
  promiseThen t.promise onFulfilled onRejected label

/-- Modelled from the spec (section 4.1): `catch` forwards to the internal
`promise` property, passing fulfillment values through unchanged. -/
def TransitionRec.catch' (t : TransitionRec T D) (onRejected : Reason → Outcome T)
    (label : Option String) : Option (Outcome T) :=
  promiseThen t.promise Outcome.fulfilled onRejected label

/-- Modelled from the spec (section 4.1): `finally` forwards to the internal
`promise` property; the callback is run for effect only (the pure model has
no effects) and the outcome passes through unchanged. -/
def TransitionRec.finally' (t : TransitionRec T D) (_onFinally : Unit → Unit)
    (label : Option String) : Option (Outcome T) :=
  promiseThen t.promise Outcome.fulfilled Outcome.rejected label

/-- Modelled from the spec (sections 3 and 4.2, router state): the router
owns the set of transitions created so far, the next sequence id, and the
single current-Pending slot. -/
structure RouterState (T D : Type) where
  transitions : List (TransitionRec T D)
  nextId : Nat
  currentPending : Option Nat
deriving DecidableEq, Repr

/-- A navigation request: destination chain leaf, destination route name,
origin chain, and initial data bag. -/
structure NavRequest (D : Type) where
  from' : Option RouteInfo
  to' : RouteInfo
  targetName : Option String
  data : List (String × D)
deriving DecidableEq, Repr

/-- Modelled from the spec (sections 4.1 and 4.2): creating a new Pending
transition first aborts any previously Pending transition (the single code
path for cancellation), then constructs the new transition already Pending,
with fields populated from the request, `urlMethod` defaulting to UpdateURL,
and its settlement promise unwritten.  Returns the new router state together
with the freshly created transition. -/
def startTransition (s : RouterState T D) (req : NavRequest D) :
    RouterState T D × TransitionRec T D :=
  let aborted := s.transitions.map fun t => if t.status = .Pending then t.abort else t
  let newT : TransitionRec T D :=
    { id := s.nextId
      from' := req.from'
      to' := req.to'
      targetName := req.targetName
      data := req.data
      urlMethod := UrlMethod.UpdateURL
      status := Status.Pending
      settlement := Option.none }
  ({ transitions := newT :: aborted
     nextId := s.nextId + 1
     currentPending := some newT.id }, newT)

/-- Modelled from the spec (section 4.2, retry): aborts the transition if it
is still active, then produces a brand-new transition with the same origin,
same destination intent and data shallow-copied from the original, submitted
to the router exactly as a fresh navigation request would be. -/
def retryTransition (s : RouterState T D) (t : TransitionRec T D) :
    RouterState T D × TransitionRec T D :=
  let s1 : RouterState T D :=
    { s with transitions := s.transitions.map fun u => if u.id = t.id then u.abort else u }
  startTransition s1 { from' := t.from', to' := t.to', targetName := t.targetName, data := t.data }

/-- Modelled from the spec (section 4.3, redirect chaser): given the eventual
settlement of every transition (`env`, by sequence id), walk the redirect
chain: a fulfillment is adopted, a Redirect-kind rejection recurses on the
superseding transition, any other rejection propagates unchanged.  The fuel
argument bounds the recursion defensively; `Option.none` means the walk did
not reach a terminal settlement. -/
def followRedirects (env : Nat → Option (Outcome T)) : Nat → Nat → Option (Outcome T)
  | 0, _ => Option.none
  | fuel + 1, tid =>
    match env tid with
    | Option.none => Option.none
    | some (.fulfilled v) => some (.fulfilled v)
    | some (.rejected (.redirected succ)) => followRedirects env fuel succ
    | some (.rejected r) => some (.rejected r)

/-- A route handler in the transition's `to` chain: its route name and, per
event name, an optional responder returning its acknowledgement. -/
structure Handler where
  routeName : String
  responder : String → Option Bool

/-- Modelled from the spec (section 4.4): whether any handler along the
chain (searched from the most deeply nested handler outward) declares a
responder for the event. -/
def dispatchHandled : List Handler → String → Bool
  | [], _ => false
  | h :: rest, name =>
    match h.responder name with
    | some _ => true
    | Option.none => dispatchHandled rest name

/-- Modelled from the spec (section 4.4, send): dispatches a named event over
the handlers of the transition's `to` chain; if no handler responds and
`ignoreFailure` is false this is a fatal unhandled-event error naming the
event and the leaf route; if `ignoreFailure` is true it silently no-ops. -/
def TransitionRec.send (t : TransitionRec T D) (handlers : List Handler)
    (ignoreFailure : Bool) (name : String) : Except Reason Unit :=
  if dispatchHandled handlers name then .ok ()
  else if ignoreFailure then .ok ()
  else .error (.unhandledEvent name t.to'.name)

/-- Modelled from the source declaration (transition.d.ts line 120, "This
method is also aliased as send"): trigger is an alias of send with an
identical contract. -/
def TransitionRec.trigger (t : TransitionRec T D) (handlers : List Handler)
    (ignoreFailure : Bool) (name : String) : Except Reason Unit :=
  t.send handlers ignoreFailure name

/-- Embedding of the TypeScript type expressions used by the declared fields
of the Transition interface (transition.d.ts lines 25 and 38). -/
inductive TsType where
  | routeInfo
  | routeInfoWithAttributes
  | null
  | union (a b : TsType)
deriving DecidableEq, Repr

/-- Declared type of the `to` field (transition.d.ts line 38):
RouteInfo | RouteInfoWithAttributes. -/
def toDeclaredType : TsType :=
  .union .routeInfo .routeInfoWithAttributes

/-- Declared type of the `from` field (transition.d.ts line 25):
RouteInfoWithAttributes | null. -/
def fromDeclaredType : TsType :=
  .union .routeInfoWithAttributes .null

/-- Whether a TypeScript type expression admits the null value. -/
def TsType.includesNull : TsType → Bool
  | .null => true
  | .union a b => a.includesNull || b.includesNull
  | _ => false

/-- Concrete two-level route chain used by the concrete witnesses. -/
def riIndex : RouteInfo := .root "index"

/-- Concrete leaf route used by the concrete witnesses. -/
def riAbout : RouteInfo := .child "about" riIndex

/-- A concrete Pending, unsettled transition. -/
def tPending : TransitionRec Nat Nat :=
  { id := 0
    from' := Option.none
    to' := riAbout
    targetName := some "about"
    data := [("k", 5)]
    urlMethod := UrlMethod.UpdateURL
    status := Status.Pending
    settlement := Option.none }

/-- A concrete already-settled (Aborted) transition. -/
def tAborted : TransitionRec Nat Nat :=
  { id := 0
    from' := Option.none
    to' := riAbout
    targetName := some "about"
    data := [("k", 5)]
    urlMethod := UrlMethod.UpdateURL
    status := Status.Aborted
    settlement := some (Outcome.rejected (Reason.aborted 0)) }

/-- A concrete router state holding one Pending transition. -/
def sOne : RouterState Nat Nat :=
  { transitions := [tPending], nextId := 1, currentPending := some 0 }

/-- A concrete navigation request. -/
def reqHome : NavRequest Nat :=
  { from' := some riAbout, to' := riIndex, targetName := some "index", data := [] }

/-- A concrete settled world: transition 0 redirected to 1, 1 redirected to
2, 2 fulfilled with 42; no transition beyond id 2. -/
def envChain : Nat → Option (Outcome Nat)
  | 0 => some (Outcome.rejected (Reason.redirected 1))
  | 1 => some (Outcome.rejected (Reason.redirected 2))
  | 2 => some (Outcome.fulfilled 42)
  | _ => Option.none

/-- Settling a transition never changes its status field. -/
theorem settle_status (t : TransitionRec T D) (o : Outcome T) :
    (t.settle o).status = t.status := by
  unfold TransitionRec.settle
  split <;> rfl

/-- Settling a transition never changes its id field. -/
theorem settle_id (t : TransitionRec T D) (o : Outcome T) :
    (t.settle o).id = t.id := by
  unfold TransitionRec.settle
  split <;> rfl

/-- Aborting a Pending transition yields status Aborted. -/
theorem abort_status_of_pending (t : TransitionRec T D) (h : t.status = Status.Pending) :
    t.abort.status = Status.Aborted := by
  unfold TransitionRec.abort
  rw [if_pos h, settle_status]

/-- Aborting a non-Pending transition is a no-op. -/
theorem abort_of_not_pending (t : TransitionRec T D) (h : t.status ≠ Status.Pending) :
    t.abort = t := by
  unfold TransitionRec.abort
  rw [if_neg h]

/-- Aborting never changes the id field. -/
theorem abort_id (t : TransitionRec T D) : t.abort.id = t.id := by
  unfold TransitionRec.abort
  split
  · rw [settle_id]
  · rfl

/-- Aborting a Pending, unsettled transition rejects its promise with an
Aborted-kind reason carrying the transition's own id. -/
theorem abort_settlement_of_pending (t : TransitionRec T D)
    (h : t.status = Status.Pending) (hu : t.settlement = Option.none) :
    t.abort.settlement = some (Outcome.rejected (Reason.aborted t.id)) := by
  unfold TransitionRec.abort TransitionRec.settle
  rw [if_pos h]
  simp [hu]

/-- C4: abort is idempotent.  On an already-settled (non-Pending) transition
abort is a no-op returning the same transition unchanged, a second abort call
has no observable effect, and the internal settlement promise is written
exactly once: the first settlement wins and all later settlement attempts
are no-ops. -/
theorem C4_abort_idempotent {T D : Type} (t : TransitionRec T D) (o o' : Outcome T)
    (h : t.status ≠ Status.Pending) :
    t.abort = t ∧
    t.abort.abort = t.abort ∧
    (t.settle o).settle o' = t.settle o := by
  have hno : t.abort = t := abort_of_not_pending t h
  refine ⟨hno, by simp [hno], ?_⟩
  unfold TransitionRec.settle
  by_cases hs : t.settlement.isSome
  · simp [hs]
  · simp [hs]

/-- C4 witness: the idempotence conclusions evaluated on a concrete settled
transition. -/
theorem C4_witness :
    tAborted.status ≠ Status.Pending ∧
    (tAborted.abort = tAborted ∧
     tAborted.abort.abort = tAborted.abort ∧
     (tAborted.settle (Outcome.fulfilled 9)).settle (Outcome.fulfilled 10) =
       tAborted.settle (Outcome.fulfilled 9)) :=
  ⟨by decide,
   C4_abort_idempotent tAborted (Outcome.fulfilled 9) (Outcome.fulfilled 10) (by decide)⟩

/-- C5: method with no argument records urlMethod None (and then no URL
mutation is requested on successful settlement); with the literal replace
token it records ReplaceURL (a single replace-style URL update is requested
on fulfillment); with any other truthy value it records UpdateURL; repeated
calls overwrite the recorded value, last write wins, and no call raises an
error (method is a total function returning the transition). -/
theorem C5_method_url (t : TransitionRec T D) (m1 m2 : Option String) (s : String)
    (hs1 : s ≠ "replace") (hs2 : s ≠ "") :
    (t.method Option.none).urlMethod = UrlMethod.None ∧
    (t.method Option.none).urlActionOnFulfill = Option.none ∧
    (t.method (some "replace")).urlMethod = UrlMethod.ReplaceURL ∧
    (t.method (some "replace")).urlActionOnFulfill = some UrlMethod.ReplaceURL ∧
    (t.method (some s)).urlMethod = UrlMethod.UpdateURL ∧
    (t.method m1).method m2 = t.method m2 := by
  refine ⟨rfl, rfl, by simp [TransitionRec.method, methodUrl], by
    simp [TransitionRec.method, TransitionRec.urlActionOnFulfill, methodUrl], ?_, rfl⟩
  simp [TransitionRec.method, methodUrl, hs1, hs2]

/-- C5 witness: the method conclusions evaluated on a concrete transition
with a concrete non-replace, non-empty token. -/
theorem C5_witness :
    ("about" ≠ "replace" ∧ "about" ≠ "") ∧
    ((tPending.method Option.none).urlMethod = UrlMethod.None ∧
     (tPending.method Option.none).urlActionOnFulfill = Option.none ∧
     (tPending.method (some "replace")).urlMethod = UrlMethod.ReplaceURL ∧
     (tPending.method (some "replace")).urlActionOnFulfill = some UrlMethod.ReplaceURL ∧
     (tPending.method (some "about")).urlMethod = UrlMethod.UpdateURL ∧
     (tPending.method (some "replace")).method Option.none = tPending.method Option.none) :=
  ⟨⟨by decide, by decide⟩,
   C5_method_url tPending (some "replace") Option.none "about" (by decide) (by decide)⟩

/-- C7: then, catch and finally on the transition are exactly the
corresponding combinator applied to its exposed read-only promise property;
the optional diagnostic label has no behavioral effect; and each of them
reads only the promise - two transitions with the same promise are
indistinguishable through then, so none of these paths can settle the
underlying promise (only the controller writes the settlement). -/
theorem C7_thennable_forwarding {T D R : Type} (t u : TransitionRec T D)
    (onF : T → Outcome R) (onR : Reason → Outcome R) (onRt : Reason → Outcome T)
    (onFin : Unit → Unit) (l l' : Option String) :
    t.then' onF onR l = promiseThen t.promise onF onR l ∧
    t.catch' onRt l = promiseThen t.promise Outcome.fulfilled onRt l ∧
    t.finally' onFin l = promiseThen t.promise Outcome.fulfilled Outcome.rejected l ∧
    t.then' onF onR l = t.then' onF onR l' ∧
    t.catch' onRt l = t.catch' onRt l' ∧
    t.finally' onFin l = t.finally' onFin l' ∧
    (t.promise = u.promise → t.then' onF onR l = u.then' onF onR l) := by
  refine ⟨rfl, rfl, rfl, rfl, rfl, rfl, fun h => ?_⟩
  unfold TransitionRec.then'
  rw [h]

/-- C7 witness: the forwarding conclusions evaluated on concrete transitions
with the same promise. -/
theorem C7_witness :
    tAborted.promise = tAborted.promise ∧
    tAborted.then' Outcome.fulfilled Outcome.rejected (some "lbl") =
      tAborted.then' Outcome.fulfilled Outcome.rejected Option.none :=
  ⟨rfl,
   (C7_thennable_forwarding tAborted tAborted Outcome.fulfilled Outcome.rejected
     Outcome.rejected (fun _ => ()) (some "lbl") Option.none).2.2.2.1⟩

/-- C9: trigger and send are aliases with an identical contract - for every
transition, handler chain, ignoreFailure flag and event name they return
exactly the same result. -/
theorem C9_trigger_send_alias {T D : Type} (t : TransitionRec T D)
    (handlers : List Handler) (ignoreFailure : Bool) (name : String) :
    t.trigger handlers ignoreFailure name = t.send handlers ignoreFailure name := rfl

/-- C10: the declared type of the `to` field admits no null while the
declared type of `from` does, and in the model even the very first
transition of the process (whose `from` is absent) carries a concrete
RouteInfo in `to`. -/
theorem C10_to_never_null :
    toDeclaredType.includesNull = false ∧
    fromDeclaredType.includesNull = true ∧
    (∀ (T D : Type) (s : RouterState T D) (ri : RouteInfo) (tn : Option String)
        (d : List (String × D)),
      (startTransition s { from' := Option.none, to' := ri, targetName := tn, data := d }
        : RouterState T D × TransitionRec T D).2.from' = Option.none ∧
      (startTransition s { from' := Option.none, to' := ri, targetName := tn, data := d }
        : RouterState T D × TransitionRec T D).2.to' = ri) :=
  ⟨rfl, rfl, fun _ _ _ _ _ _ => ⟨rfl, rfl⟩⟩

/-- C1: at most one transition is Pending per router instance.  When a new
transition B is created while a transition A is still Pending, A's status
becomes Aborted and A's promise rejects with an Aborted-kind reason carrying
A's own id, while B is still Pending and unsettled (A settles before B
does); afterwards B is the only transition whose status is Pending. -/
theorem C1_single_pending_abort {T D : Type} (s : RouterState T D) (req : NavRequest D)
    (t : TransitionRec T D) (hmem : t ∈ s.transitions) (hp : t.status = Status.Pending)
    (hu : t.settlement = Option.none) :
    (∃ t' ∈ (startTransition s req).1.transitions,
        t'.id = t.id ∧ t'.status = Status.Aborted ∧
        t'.settlement = some (Outcome.rejected (Reason.aborted t.id))) ∧
    (∀ u ∈ (startTransition s req).1.transitions,
        u.status = Status.Pending → u.id = (startTransition s req).2.id) ∧
    (startTransition s req).2.status = Status.Pending ∧
    (startTransition s req).2.settlement = Option.none := by
  have hmain : (startTransition s req).1.transitions
      = (startTransition s req).2
        :: s.transitions.map (fun v => if v.status = Status.Pending then v.abort else v) := rfl
  refine ⟨⟨t.abort, ?_, abort_id t, abort_status_of_pending t hp,
    abort_settlement_of_pending t hp hu⟩, ?_, rfl, rfl⟩
  · rw [hmain]
    refine List.mem_cons_of_mem _ ?_
    have hmap := List.mem_map_of_mem
      (fun v => if v.status = Status.Pending then v.abort else v) hmem
    simpa [hp] using hmap
  · intro u humem hup
    rw [hmain] at humem
    rcases List.mem_cons.mp humem with rfl | hm
    · rfl
    · obtain ⟨v, hv, rfl⟩ := List.mem_map.mp hm
      by_cases hvp : v.status = Status.Pending
      · rw [if_pos hvp, abort_status_of_pending v hvp] at hup
        exact absurd hup (by decide)
      · rw [if_neg hvp] at hup
        exact absurd hup hvp

/-- C1 witness: starting a new navigation on a concrete router state holding
a concrete Pending transition. -/
theorem C1_witness :
    (tPending ∈ sOne.transitions ∧ tPending.status = Status.Pending ∧
     tPending.settlement = Option.none) ∧
    ((∃ t' ∈ (startTransition sOne reqHome).1.transitions,
        t'.id = tPending.id ∧ t'.status = Status.Aborted ∧
        t'.settlement = some (Outcome.rejected (Reason.aborted tPending.id))) ∧
     (∀ u ∈ (startTransition sOne reqHome).1.transitions,
        u.status = Status.Pending → u.id = (startTransition sOne reqHome).2.id) ∧
     (startTransition sOne reqHome).2.status = Status.Pending ∧
     (startTransition sOne reqHome).2.settlement = Option.none) :=
  ⟨⟨by simp [sOne], rfl, rfl⟩,
   C1_single_pending_abort sOne reqHome tPending (by simp [sOne]) rfl rfl⟩

/-- C3: retry on a non-Pending transition produces a brand-new transition
(fresh sequence id, Pending, unsettled) with the same origin, the same
destination intent (targetName and the to target) and data copied verbatim
from the original at retry time, and it does not mutate or revive the
original: the original record survives in the router state unchanged. -/
theorem C3_retry_copies {T D : Type} (s : RouterState T D) (t : TransitionRec T D)
    (h : t.status ≠ Status.Pending) :
    (retryTransition s t).2.from' = t.from' ∧
    (retryTransition s t).2.to' = t.to' ∧
    (retryTransition s t).2.targetName = t.targetName ∧
    (retryTransition s t).2.data = t.data ∧
    (retryTransition s t).2.id = s.nextId ∧
    (retryTransition s t).2.status = Status.Pending ∧
    (retryTransition s t).2.settlement = Option.none ∧
    (t ∈ s.transitions → t ∈ (retryTransition s t).1.transitions) := by
  refine ⟨rfl, rfl, rfl, rfl, rfl, rfl, rfl, fun hm => ?_⟩
  have h1 : t.abort = t := abort_of_not_pending t h
  have step1 : t ∈ s.transitions.map (fun u => if u.id = t.id then u.abort else u) := by
    have hmap := List.mem_map_of_mem (fun u => if u.id = t.id then u.abort else u) hm
    simpa [h1] using hmap
  have hmain : (retryTransition s t).1.transitions
      = (retryTransition s t).2
        :: (s.transitions.map (fun u => if u.id = t.id then u.abort else u)).map
            (fun v => if v.status = Status.Pending then v.abort else v) := rfl
  rw [hmain]
  refine List.mem_cons_of_mem _ ?_
  have hmap2 := List.mem_map_of_mem
    (fun v => if v.status = Status.Pending then v.abort else v) step1
  simpa [h] using hmap2

/-- C3 witness: retrying a concrete Aborted transition against a concrete
router state. -/
theorem C3_witness :
    tAborted.status ≠ Status.Pending ∧
    ((retryTransition sOne tAborted).2.from' = tAborted.from' ∧
     (retryTransition sOne tAborted).2.to' = tAborted.to' ∧
     (retryTransition sOne tAborted).2.targetName = tAborted.targetName ∧
     (retryTransition sOne tAborted).2.data = tAborted.data ∧
     (retryTransition sOne tAborted).2.id = sOne.nextId ∧
     (retryTransition sOne tAborted).2.status = Status.Pending ∧
     (retryTransition sOne tAborted).2.settlement = Option.none ∧
     (tAborted ∈ sOne.transitions → tAborted ∈ (retryTransition sOne tAborted).1.transitions)) :=
  ⟨by decide, C3_retry_copies sOne tAborted (by decide)⟩

/-- C6: when no handler along the to chain declares a responder for the
event, send with ignoreFailure false signals an UnhandledEvent error naming
the event and the leaf route, while send with ignoreFailure true under the
same conditions completes silently as a no-op. -/
theorem C6_unhandled_event {T D : Type} (t : TransitionRec T D) (handlers : List Handler)
    (name : String) (h : ∀ hd ∈ handlers, hd.responder name = Option.none) :
    t.send handlers false name = Except.error (Reason.unhandledEvent name t.to'.name) ∧
    t.send handlers true name = Except.ok () := by
  have hdis : ∀ (hs : List Handler), (∀ x ∈ hs, x.responder name = Option.none) →
      dispatchHandled hs name = false := by
    intro hs
    induction hs with
    | nil => intro _; rfl
    | cons x rest ih =>
      intro hall
      have hx := hall x (List.mem_cons_self x rest)
      simp only [dispatchHandled, hx]
      exact ih fun y hy => hall y (List.mem_cons_of_mem x hy)
  constructor
  · simp [TransitionRec.send, hdis handlers h]
  · simp [TransitionRec.send, hdis handlers h]

/-- C6 witness: a concrete transition with an empty handler chain and a
concrete event name. -/
theorem C6_witness :
    (∀ hd ∈ ([] : List Handler), hd.responder "willTransition" = Option.none) ∧
    (tPending.send [] false "willTransition" =
        Except.error (Reason.unhandledEvent "willTransition" tPending.to'.name) ∧
     tPending.send [] true "willTransition" = Except.ok ()) :=
  ⟨by simp, C6_unhandled_event tPending [] "willTransition" (by simp)⟩

/-- C2: followRedirects adopts a fulfillment as its own, propagates any
non-Redirect rejection unchanged, and on a Redirect-kind rejection recurses
on the superseding transition; in particular, on a chain where A is
redirected to B, B is redirected to C and C fulfills with value w,
followRedirects starting at A resolves with w. -/
theorem C2_followRedirects_adopts {T : Type} (env : Nat → Option (Outcome T))
    (fuel tid a b c : Nat) (v w : T) (r : Reason) :
    (env tid = some (Outcome.fulfilled v) →
        followRedirects env (fuel + 1) tid = some (Outcome.fulfilled v)) ∧
    (env tid = some (Outcome.rejected r) → r.isRedirect = false →
        followRedirects env (fuel + 1) tid = some (Outcome.rejected r)) ∧
    (env tid = some (Outcome.rejected (Reason.redirected b)) →
        followRedirects env (fuel + 1) tid = followRedirects env fuel b) ∧
    (env a = some (Outcome.rejected (Reason.redirected b)) →
     env b = some (Outcome.rejected (Reason.redirected c)) →
     env c = some (Outcome.fulfilled w) →
        followRedirects env (fuel + 3) a = some (Outcome.fulfilled w)) := by
  refine ⟨fun h => ?_, fun h hr => ?_, fun h => ?_, fun h1 h2 h3 => ?_⟩
  · simp [followRedirects, h]
  · cases r with
    | redirected s => simp [Reason.isRedirect] at hr
    | aborted i => simp [followRedirects, h]
    | hookFailure m => simp [followRedirects, h]
    | unhandledEvent e l => simp [followRedirects, h]
  · simp [followRedirects, h]
  · show followRedirects env (fuel + 2 + 1) a = some (Outcome.fulfilled w)
    have e1 : followRedirects env (fuel + 2 + 1) a = followRedirects env (fuel + 2) b := by
      simp [followRedirects, h1]
    have e2 : followRedirects env (fuel + 1 + 1) b = followRedirects env (fuel + 1) c := by
      simp [followRedirects, h2]
    have e3 : followRedirects env (fuel + 1) c = some (Outcome.fulfilled w) := by
      simp [followRedirects, h3]
    rw [e1]
    exact e2.trans e3

/-- C2 witness: the concrete redirect chain 0 redirected to 1, 1 redirected
to 2, 2 fulfilled with 42. -/
theorem C2_witness :
    (envChain 0 = some (Outcome.rejected (Reason.redirected 1)) ∧
     envChain 1 = some (Outcome.rejected (Reason.redirected 2)) ∧
     envChain 2 = some (Outcome.fulfilled 42)) ∧
    followRedirects envChain 3 0 = some (Outcome.fulfilled 42) :=
  ⟨⟨rfl, rfl, rfl⟩,
   (C2_followRedirects_adopts envChain 0 0 0 1 2 42 42 (Reason.aborted 0)).2.2.2 rfl rfl rfl⟩

/-- With more fuel, a walk of the redirect chain that reached a terminal
settlement reaches the same one. -/
theorem followRedirects_fuel_mono {T : Type} (env : Nat → Option (Outcome T)) :
    ∀ (f f' tid : Nat) (o : Outcome T), f ≤ f' →
      followRedirects env f tid = some o → followRedirects env f' tid = some o := by
  intro f
  induction f with
  | zero => intro f' tid o _ hc; simp [followRedirects] at hc
  | succ f ih =>
    intro f' tid o hle hc
    obtain ⟨f'', rfl⟩ : ∃ f'', f' = f'' + 1 := ⟨f' - 1, by omega⟩
    have hle' : f ≤ f'' := by omega
    simp only [followRedirects] at hc ⊢
    cases he : env tid with
    | none => rw [he] at hc; simp at hc
    | some oc =>
      rw [he] at hc
      cases oc with
      | fulfilled v => exact hc
      | rejected r =>
        cases r with
        | redirected s => exact ih f'' s o hle' hc
        | aborted i => exact hc
        | hookFailure m => exact hc
        | unhandledEvent e l => exact hc

/-- C8: followRedirects terminates.  If every Redirect-kind rejection points
to a transition with a strictly higher sequence id (all ids below a bound N)
and every transition below the bound is settled, the walk starting at any
transition below the bound reaches a terminal settlement in finitely many
steps - fuel N - tid suffices. -/
theorem C8_followRedirects_terminates {T : Type} (env : Nat → Option (Outcome T))
    (N tid : Nat)
    (hmono : ∀ i s, env i = some (Outcome.rejected (Reason.redirected s)) → i < s ∧ s < N)
    (hdef : ∀ i, i < N → (env i).isSome)
    (ht : tid < N) :
    ∃ o, followRedirects env (N - tid) tid = some o := by
  suffices hgen : ∀ (k j : Nat), j < N → N - j ≤ k →
      ∃ o, followRedirects env k j = some o from hgen (N - tid) tid ht le_rfl
  intro k
  induction k with
  | zero => intro j hj hk; omega
  | succ k ih =>
    intro j hj hk
    have hs : (env j).isSome := hdef j hj
    cases he : env j with
    | none => rw [he] at hs; exact absurd hs (by simp)
    | some oc =>
      cases oc with
      | fulfilled v =>
        exact ⟨Outcome.fulfilled v, by simp only [followRedirects]; rw [he]⟩
      | rejected r =>
        cases r with
        | redirected s =>
          obtain ⟨hj2, hs2⟩ := hmono j s he
          obtain ⟨o, ho⟩ := ih s hs2 (by omega)
          refine ⟨o, ?_⟩
          simp only [followRedirects]
          rw [he]
          exact ho
        | aborted i =>
          exact ⟨Outcome.rejected (Reason.aborted i), by simp only [followRedirects]; rw [he]⟩
        | hookFailure m =>
          exact ⟨Outcome.rejected (Reason.hookFailure m), by
            simp only [followRedirects]; rw [he]⟩
        | unhandledEvent e l =>
          exact ⟨Outcome.rejected (Reason.unhandledEvent e l), by
            simp only [followRedirects]; rw [he]⟩

/-- C8 witness: the concrete redirect chain with ids 0, 1, 2 bounded by 3,
where the walk terminates with fuel 3. -/
theorem C8_witness :
    ((∀ i, i < 3 → (envChain i).isSome) ∧ 0 < 3) ∧
    ∃ o, followRedirects envChain (3 - 0) 0 = some o :=
  ⟨⟨by decide, by decide⟩,
   C8_followRedirects_terminates envChain 3 0
     (by
       intro i s h
       rcases i with _ | _ | _ | i
       · simp only [envChain, Option.some.injEq, Outcome.rejected.injEq,
           Reason.redirected.injEq] at h
         omega
       · simp only [envChain, Option.some.injEq, Outcome.rejected.injEq,
           Reason.redirected.injEq] at h
         omega
       · simp [envChain] at h
       · simp [envChain] at h)
     (by decide) (by decide)⟩

end Spec2Proof
